import Mathlib

/-!
Shallow embedding of `src/cameras/persistence/video_writer/video_recorder.py`
(class `VideoRecorder`).

Modelling conventions:
- images are opaque `Nat` identifiers; timestamps are exact rationals
  (the source stores nanosecond values in a numpy float array);
- numpy float results that matter here (`nanmedian` of an empty array,
  `x ** -1` at zero) are modelled by `NumVal` with explicit `inf`/`nan`
  constructors;
- the cv2 `VideoWriter` sink and the two side-file writers are external
  collaborators: each call they receive is recorded as an `Event` in an
  output trace, and an `Env` oracle decides which external calls fail;
- a Python exception propagating out of a method is an `Err` value
  (`Except`/`Option Err` results).
-/

namespace Freemocap

/-- One captured frame: an opaque image plus its capture timestamp
(nanoseconds, exact rational). Mirrors `FramePayload`. -/
structure FramePayload where
  image : Nat
  timestamp : ℚ
  deriving DecidableEq

/-- A numpy floating result: a finite rational, positive infinity, or NaN. -/
inductive NumVal where
  | num (q : ℚ)
  | inf
  | nan
  deriving DecidableEq

/-- `x ** -1` on a numpy float: reciprocal, with `0 ** -1 = inf` and
`nan ** -1 = nan`. -/
def recipVal : NumVal → NumVal
  | NumVal.num q => if q = 0 then NumVal.inf else NumVal.num q⁻¹
  | NumVal.inf => NumVal.num 0
  | NumVal.nan => NumVal.nan

/-- Insert into a sorted list of rationals (helper for the median). -/
def insertSorted (x : ℚ) : List ℚ → List ℚ
  | [] => [x]
  | y :: ys => if x ≤ y then x :: y :: ys else y :: insertSorted x ys

/-- Insertion sort on rationals (helper for the median). -/
def sortQ : List ℚ → List ℚ
  | [] => []
  | x :: xs => insertSorted x (sortQ xs)

/-- `np.nanmedian` on an array without NaN entries: NaN for the empty
array, otherwise the middle of the sorted values (mean of the two middle
values for even length). -/
def npNanmedian (l : List ℚ) : NumVal :=
  let s := sortQ l
  if s.length = 0 then NumVal.nan
  else if s.length % 2 = 1 then NumVal.num (s.getD (s.length / 2) 0)
  else NumVal.num ((s.getD (s.length / 2 - 1) 0 + s.getD (s.length / 2) 0) / 2)

/-- `np.diff`: consecutive differences. -/
def npDiff : List ℚ → List ℚ
  | a :: b :: rest => (b - a) :: npDiff (b :: rest)
  | _ => []

/-- Exceptions the source can raise on the modelled paths. -/
inductive Err where
  | emptyBuffer
  | sinkWriteError (i : Nat)
  | npySaveError
  | csvSaveError
  | noneAttributeError
  deriving DecidableEq

/-- One call to an external collaborator (cv2 sink, `np.save`,
`DataFrame.to_csv`), as observed from outside the recorder. -/
inductive Event where
  | sinkOpen (path : String) (fourcc : String) (fps : NumVal) (w h : Nat)
  | sinkWrite (image : Nat)
  | sinkRelease
  | npySave (path : String) (data : List ℚ)
  | csvSave (path : String) (data : List ℚ)
  deriving DecidableEq

/-- Failure oracle for external calls: `writeFails i` means the i-th
`VideoWriter.write` of the current write loop raises; the two flags make
`np.save` / `DataFrame.to_csv` raise. -/
structure Env where
  writeFails : Nat → Bool
  npySaveFails : Bool
  csvSaveFails : Bool

/-- The mutable state of a `VideoRecorder` instance. -/
structure VideoRecorder where
  video_name : String
  image_width : Nat
  image_height : Nat
  fourcc : String
  frame_payload_list : List FramePayload
  timestamps_npy : List ℚ
  cv2_video_writer : Option Unit
  video_folder_path : String
  path_to_save_video_file : String
  deriving DecidableEq

/-- `VideoRecorder.__init__`. The three session-path resolvers are external
collaborators (`src.config.home_dir`), passed in as functions. -/
def mkVideoRecorder
    (get_synchronized_videos_folder_path : String → String)
    (get_calibration_videos_folder_path : String → String)
    (get_mediapipe_annotated_videos_folder_path : String → String)
    (video_name : String) (image_width image_height : Nat)
    (session_id : String) (fourcc : String)
    (calibration_video_bool : Bool) (mediapipe_annotated_video_bool : Bool) :
    VideoRecorder :=
  let folder :=
    if mediapipe_annotated_video_bool then
      get_mediapipe_annotated_videos_folder_path session_id
    else if calibration_video_bool then
      get_calibration_videos_folder_path session_id
    else
      get_synchronized_videos_folder_path session_id
  { video_name := video_name
    image_width := image_width
    image_height := image_height
    fourcc := fourcc
    frame_payload_list := []
    timestamps_npy := []
    cv2_video_writer := none
    video_folder_path := folder
    path_to_save_video_file := folder ++ "/" ++ video_name ++ ".mp4" }

/-- `append_frame_payload_to_list`. -/
def append_frame_payload_to_list (r : VideoRecorder) (frame_payload : FramePayload) :
    VideoRecorder :=
  { r with frame_payload_list := r.frame_payload_list ++ [frame_payload] }

/-- `_gather_timestamps`: appends every buffered frame's timestamp to the
existing `_timestamps_npy` array (which is never reset). -/
def gather_timestamps (r : VideoRecorder) : VideoRecorder :=
  { r with timestamps_npy :=
      r.timestamps_npy ++ r.frame_payload_list.map (fun f => f.timestamp) }

/-- The `median_framerate` property: raises on an empty buffer, otherwise
gathers timestamps (mutating the series) and returns
`nanmedian(diff(timestamps_npy / 1e9)) ** -1`. -/
def median_framerate (r : VideoRecorder) : Except Err (NumVal × VideoRecorder) :=
  if r.frame_payload_list.length = 0 then Except.error Err.emptyBuffer
  else
    let r1 := gather_timestamps r
    Except.ok
      (recipVal (npNanmedian (npDiff (r1.timestamps_npy.map (fun t => t / 1000000000)))),
       r1)

/-- `_initialize_video_writer`: with an explicit rate opens the sink with
it; with `None` derives the rate from `median_framerate` (which can raise
and which mutates the timestamp series). -/
def init_video_writer (r : VideoRecorder) (frames_per_second : Option NumVal) :
    Except Err (VideoRecorder × Event) :=
  match frames_per_second with
  | some fps =>
      Except.ok ({ r with cv2_video_writer := some () },
        Event.sinkOpen r.path_to_save_video_file r.fourcc fps r.image_width r.image_height)
  | none =>
      match median_framerate r with
      | Except.error e => Except.error e
      | Except.ok (fps, r1) =>
          Except.ok ({ r1 with cv2_video_writer := some () },
            Event.sinkOpen r1.path_to_save_video_file r1.fourcc fps r1.image_width
              r1.image_height)

/-- The write loop shared by both flush paths: writes images in order,
stopping with an exception at the first index the oracle fails. -/
def writeImagesLoop (env : Env) (imgs : List Nat) (i : Nat) :
    List Event × Option Err :=
  match imgs with
  | [] => ([], none)
  | img :: rest =>
      if env.writeFails i then ([], some (Err.sinkWriteError i))
      else
        let out := writeImagesLoop env rest (i + 1)
        (Event.sinkWrite img :: out.1, out.2)

/-- `_write_frame_list_to_video_file`: writes every buffered image; the
`finally` block releases the sink on success and failure alike, after
which any write exception propagates. -/
def write_frame_list_to_video_file (env : Env) (r : VideoRecorder) :
    List Event × Option Err :=
  let out := writeImagesLoop env (r.frame_payload_list.map (fun f => f.image)) 0
  (out.1 ++ [Event.sinkRelease], out.2)

/-- `_write_image_list_to_video_file`: same loop over a raw image list. -/
def write_image_list_to_video_file (env : Env) (image_list : List Nat) :
    List Event × Option Err :=
  let out := writeImagesLoop env image_list 0
  (out.1 ++ [Event.sinkRelease], out.2)

/-- `_save_timestamps`: `np.save` of the binary file, then
`DataFrame.to_csv` of the human-readable file. There is no exception
handling in the source: a failing binary save propagates immediately and
the csv write is never attempted. -/
def save_timestamps (env : Env) (r : VideoRecorder) : List Event × Option Err :=
  if env.npySaveFails then ([], some Err.npySaveError)
  else
    let npyEv := Event.npySave
      (r.video_folder_path ++ "/" ++ r.video_name ++ "_timestamps_binary.npy")
      r.timestamps_npy
    if env.csvSaveFails then ([npyEv], some Err.csvSaveError)
    else
      ([npyEv,
        Event.csvSave
          (r.video_folder_path ++ "/" ++ r.video_name ++ "_timestamps_human_readable.csv")
          r.timestamps_npy],
       none)

/-- `save_frame_payload_list_to_disk` (the buffered-frame flush): early
return on an empty buffer; otherwise gather timestamps, initialize the
writer (which gathers again via `median_framerate`), write the frames,
then persist the timestamp series. Result: final state, event trace, and
the exception that propagated (if any). -/
def save_frame_payload_list_to_disk (env : Env) (r : VideoRecorder) :
    VideoRecorder × List Event × Option Err :=
  if r.frame_payload_list.length = 0 then (r, [], none)
  else
    let r1 := gather_timestamps r
    match init_video_writer r1 none with
    | Except.error e => (r1, [], some e)
    | Except.ok (r2, openEv) =>
        match write_frame_list_to_video_file env r2 with
        | (evs1, some e) => (r2, openEv :: evs1, some e)
        | (evs1, none) =>
            let out2 := save_timestamps env r2
            (r2, openEv :: evs1 ++ out2.1, out2.2)

/-- `save_image_list_to_disk` (the direct image-list flush). -/
def save_image_list_to_disk (env : Env) (r : VideoRecorder)
    (image_list : List Nat) (frame_rate : Option NumVal) :
    VideoRecorder × List Event × Option Err :=
  if image_list.length = 0 then (r, [], none)
  else
    match init_video_writer r frame_rate with
    | Except.error e => (r, [], some e)
    | Except.ok (r2, openEv) =>
        let out1 := write_image_list_to_video_file env image_list
        (r2, openEv :: out1.1, out1.2)

/-- `save_frame_payload_to_video_file` (the streaming write): lazily
initializes the writer when it is `None`, then writes the single image. -/
def save_frame_payload_to_video_file (r : VideoRecorder)
    (frame_payload : FramePayload) : Except Err (VideoRecorder × List Event) :=
  match r.cv2_video_writer with
  | some _ => Except.ok (r, [Event.sinkWrite frame_payload.image])
  | none =>
      match init_video_writer r none with
      | Except.error e => Except.error e
      | Except.ok (r1, openEv) =>
          Except.ok (r1, [openEv, Event.sinkWrite frame_payload.image])

/-- `close`: releases the writer; on a never-opened recorder the source
dereferences `None` and raises. -/
def close (r : VideoRecorder) : Except Err (List Event) :=
  match r.cv2_video_writer with
  | none => Except.error Err.noneAttributeError
  | some _ => Except.ok [Event.sinkRelease]

/-- A sequence of streaming writes, accumulating state and trace. -/
def streamFrames (r : VideoRecorder) (frames : List FramePayload) :
    Except Err (VideoRecorder × List Event) :=
  match frames with
  | [] => Except.ok (r, [])
  | f :: rest =>
      match save_frame_payload_to_video_file r f with
      | Except.error e => Except.error e
      | Except.ok (r1, evs1) =>
          match streamFrames r1 rest with
          | Except.error e => Except.error e
          | Except.ok (r2, evs2) => Except.ok (r2, evs1 ++ evs2)

/-! Concrete fixtures used by witnesses and counterexamples. The three
path resolvers are arbitrary concrete instantiations of the external
collaborators. -/

/-- Concrete stand-in for the external synchronized-videos path resolver. -/
def sync_path_model (session_id : String) : String :=
  "freemocap_data/" ++ session_id ++ "/synchronized_videos"

/-- Concrete stand-in for the external calibration-videos path resolver. -/
def calib_path_model (session_id : String) : String :=
  "freemocap_data/" ++ session_id ++ "/calibration_videos"

/-- Concrete stand-in for the external annotated-videos path resolver. -/
def annotated_path_model (session_id : String) : String :=
  "freemocap_data/" ++ session_id ++ "/mediapipe_annotated_videos"

/-- Environment in which every external call succeeds. -/
def envOk : Env :=
  { writeFails := fun _ => false, npySaveFails := false, csvSaveFails := false }

/-- Environment in which only the binary timestamp save fails. -/
def envNpyFail : Env :=
  { writeFails := fun _ => false, npySaveFails := true, csvSaveFails := false }

/-- A freshly constructed recorder (default category, empty buffer). -/
def rec0 : VideoRecorder :=
  mkVideoRecorder sync_path_model calib_path_model annotated_path_model
    "cam0" 640 480 "sess1" "MP4V" false false

/-- `rec0` after appending one frame (image 7, timestamp 42 ns). -/
def rec1 : VideoRecorder :=
  append_frame_payload_to_list rec0 { image := 7, timestamp := 42 }

/-- `rec0` after appending three frames with timestamps 0 s, 1 s, 3 s. -/
def rec3 : VideoRecorder :=
  append_frame_payload_to_list
    (append_frame_payload_to_list
      (append_frame_payload_to_list rec0 { image := 1, timestamp := 0 })
      { image := 2, timestamp := 1000000000 })
    { image := 3, timestamp := 3000000000 }

/-! Helper lemmas about the embedded operations. -/

/-- The frame-rate value `median_framerate` computes on a non-empty buffer. -/
def medianValue (r : VideoRecorder) : NumVal :=
  recipVal (npNanmedian
    (npDiff ((gather_timestamps r).timestamps_npy.map (fun t => t / 1000000000))))

theorem length_ne_zero_of_ne_nil {α : Type} {l : List α} (h : l ≠ []) :
    ¬ l.length = 0 := fun h0 => h (List.length_eq_zero.mp h0)

theorem median_framerate_ok (r : VideoRecorder) (hne : r.frame_payload_list ≠ []) :
    median_framerate r = Except.ok (medianValue r, gather_timestamps r) := by
  unfold median_framerate medianValue
  rw [if_neg (length_ne_zero_of_ne_nil hne)]

theorem gather_preserves_frames (r : VideoRecorder) :
    (gather_timestamps r).frame_payload_list = r.frame_payload_list := rfl

theorem init_video_writer_none (r : VideoRecorder) (hne : r.frame_payload_list ≠ []) :
    init_video_writer r none = Except.ok
      ({ gather_timestamps r with cv2_video_writer := some () },
       Event.sinkOpen r.path_to_save_video_file r.fourcc (medianValue r)
         r.image_width r.image_height) := by
  unfold init_video_writer
  rw [median_framerate_ok r hne]
  rfl

theorem writeImagesLoop_ok (env : Env) :
    ∀ (imgs : List Nat) (i : Nat),
      (∀ j, j < imgs.length → env.writeFails (i + j) = false) →
      writeImagesLoop env imgs i = (imgs.map Event.sinkWrite, none)
  | [], _, _ => rfl
  | img :: rest, i, h => by
      have h0 : env.writeFails i = false := by simpa using h 0 (by simp)
      have hrec := writeImagesLoop_ok env rest (i + 1) (fun j hj => by
        have hj' : j + 1 < (img :: rest).length := by
          simpa using Nat.succ_lt_succ hj
        have := h (j + 1) hj'
        have harith : i + (j + 1) = i + 1 + j := by omega
        rwa [harith] at this)
      simp [writeImagesLoop, h0, hrec]

theorem writeImagesLoop_fail (env : Env) :
    ∀ (imgs : List Nat) (i k : Nat),
      k < imgs.length → env.writeFails (i + k) = true →
      (∀ j, j < k → env.writeFails (i + j) = false) →
      writeImagesLoop env imgs i =
        ((imgs.take k).map Event.sinkWrite, some (Err.sinkWriteError (i + k)))
  | [], _, k, hk, _, _ => absurd hk (by simp)
  | img :: rest, i, k, hk, hfail, hmin => by
      cases k with
      | zero =>
          have h0 : env.writeFails i = true := by simpa using hfail
          simp [writeImagesLoop, h0]
      | succ k' =>
          have h0 : env.writeFails i = false := by
            simpa using hmin 0 (Nat.succ_pos _)
          have hk' : k' < rest.length := by simpa using Nat.lt_of_succ_lt_succ hk
          have hfail' : env.writeFails (i + 1 + k') = true := by
            have harith : i + (k' + 1) = i + 1 + k' := by omega
            rwa [harith] at hfail
          have hmin' : ∀ j, j < k' → env.writeFails (i + 1 + j) = false := by
            intro j hj
            have := hmin (j + 1) (Nat.succ_lt_succ hj)
            have harith : i + (j + 1) = i + 1 + j := by omega
            rwa [harith] at this
          have hrec := writeImagesLoop_fail env rest (i + 1) k' hk' hfail' hmin'
          have harith : i + (k' + 1) = i + 1 + k' := by omega
          simp [writeImagesLoop, h0, hrec, List.take, harith]

theorem save_timestamps_no_sink_events (env : Env) (r : VideoRecorder) :
    (∀ img, Event.sinkWrite img ∉ (save_timestamps env r).1) ∧
    Event.sinkRelease ∉ (save_timestamps env r).1 := by
  unfold save_timestamps
  by_cases h1 : env.npySaveFails <;> by_cases h2 : env.csvSaveFails <;> simp [h1, h2]

theorem flush_eq_ok (env : Env) (r : VideoRecorder) (hne : r.frame_payload_list ≠ [])
    (hw : ∀ j, j < r.frame_payload_list.length → env.writeFails j = false) :
    save_frame_payload_list_to_disk env r =
      ({ gather_timestamps (gather_timestamps r) with cv2_video_writer := some () },
       Event.sinkOpen r.path_to_save_video_file r.fourcc (medianValue (gather_timestamps r))
           r.image_width r.image_height
         :: ((r.frame_payload_list.map (fun f => Event.sinkWrite f.image))
             ++ [Event.sinkRelease])
         ++ (save_timestamps env
              { gather_timestamps (gather_timestamps r) with cv2_video_writer := some () }).1,
       (save_timestamps env
         { gather_timestamps (gather_timestamps r) with cv2_video_writer := some () }).2) := by
  have hloop := writeImagesLoop_ok env (r.frame_payload_list.map (fun f => f.image)) 0
    (fun j hj => by
      rw [Nat.zero_add]
      exact hw j (by simpa using hj))
  unfold save_frame_payload_list_to_disk
  rw [if_neg (length_ne_zero_of_ne_nil hne)]
  simp only [init_video_writer_none (gather_timestamps r) hne,
    write_frame_list_to_video_file, gather_preserves_frames, hloop,
    List.map_map, Function.comp]
  simp [gather_timestamps, Function.comp]

theorem flush_eq_fail (env : Env) (r : VideoRecorder) (hne : r.frame_payload_list ≠ [])
    (k : Nat) (hk : k < r.frame_payload_list.length)
    (hfail : env.writeFails k = true)
    (hmin : ∀ j, j < k → env.writeFails j = false) :
    save_frame_payload_list_to_disk env r =
      ({ gather_timestamps (gather_timestamps r) with cv2_video_writer := some () },
       Event.sinkOpen r.path_to_save_video_file r.fourcc (medianValue (gather_timestamps r))
           r.image_width r.image_height
         :: (((r.frame_payload_list.take k).map (fun f => Event.sinkWrite f.image))
             ++ [Event.sinkRelease]),
       some (Err.sinkWriteError k)) := by
  have hloop := writeImagesLoop_fail env (r.frame_payload_list.map (fun f => f.image)) 0 k
    (by simpa using hk)
    (by rw [Nat.zero_add]; exact hfail)
    (fun j hj => by rw [Nat.zero_add]; exact hmin j hj)
  rw [Nat.zero_add] at hloop
  unfold save_frame_payload_list_to_disk
  rw [if_neg (length_ne_zero_of_ne_nil hne)]
  simp only [init_video_writer_none (gather_timestamps r) hne,
    write_frame_list_to_video_file, gather_preserves_frames, hloop,
    List.map_take, List.map_map, Function.comp]
  simp [gather_timestamps, Function.comp]
  rfl

theorem npDiff_map_div (c : ℚ) :
    (l : List ℚ) → npDiff (l.map (fun t => t / c)) = (npDiff l).map (fun d => d / c)
  | [] => rfl
  | [_] => rfl
  | a :: b :: rest => by
      show (b / c - a / c) :: npDiff ((b :: rest).map (fun t => t / c))
          = ((b - a) / c) :: (npDiff (b :: rest)).map (fun d => d / c)
      rw [npDiff_map_div c (b :: rest), sub_div]

theorem streamFrames_opened :
    (l : List FramePayload) → ∀ (r : VideoRecorder), r.cv2_video_writer = some () →
      streamFrames r l = Except.ok (r, l.map (fun g => Event.sinkWrite g.image))
  | [], r, _ => rfl
  | f :: rest, r, hw => by
      have hrec := streamFrames_opened rest r hw
      simp [streamFrames, save_frame_payload_to_video_file, hw, hrec]

/-! Claim theorems. -/

theorem medianValue_rec1_gathered :
    medianValue (gather_timestamps rec1) = NumVal.inf := by
  have h3 : (42 : ℚ) / 1000000000 - 42 / 1000000000 = 0 := by norm_num
  unfold medianValue
  show recipVal (npNanmedian [(42 : ℚ) / 1000000000 - 42 / 1000000000]) = NumVal.inf
  rw [h3]
  decide

/-- Claim C1 (evaluation at the failing input): a fresh recorder with a
single appended frame (timestamp 42 ns), flushed in an environment where
both side-file writes succeed, persists TWO entries `[42, 42]` in both the
binary and the human-readable timestamp file, because the flush gathers the
buffered timestamps once directly and a second time through
`median_framerate` inside `_initialize_video_writer`. The claim's "exactly
n entries in append order" (here: one entry `[42]`) does not hold. -/
theorem C1_flush_persists_each_timestamp_twice :
    rec1.frame_payload_list.length = 1 ∧
    save_frame_payload_list_to_disk envOk rec1 =
      ({ rec1 with timestamps_npy := [42, 42], cv2_video_writer := some () },
       [Event.sinkOpen "freemocap_data/sess1/synchronized_videos/cam0.mp4" "MP4V"
          NumVal.inf 640 480,
        Event.sinkWrite 7, Event.sinkRelease,
        Event.npySave
          "freemocap_data/sess1/synchronized_videos/cam0_timestamps_binary.npy"
          [42, 42],
        Event.csvSave
          "freemocap_data/sess1/synchronized_videos/cam0_timestamps_human_readable.csv"
          [42, 42]],
       none) := by
  refine ⟨rfl, ?_⟩
  rw [flush_eq_ok envOk rec1 (by decide) (fun j _ => rfl), medianValue_rec1_gathered]
  decide

/-- Claim C2: on a freshly constructed recorder (empty timestamp series)
with a non-empty buffer, the first evaluation of `median_framerate`
returns the reciprocal of the median of the consecutive timestamp
differences, each converted from nanoseconds to seconds; for a single
buffered frame the difference sequence is empty and the result is NaN. -/
theorem C2_median_framerate_first_evaluation (r : VideoRecorder)
    (hfresh : r.timestamps_npy = []) (hne : r.frame_payload_list ≠ []) :
    median_framerate r =
      Except.ok
        (recipVal (npNanmedian
          ((npDiff (r.frame_payload_list.map (fun f => f.timestamp))).map
            (fun d => d / 1000000000))),
         gather_timestamps r) ∧
    (r.frame_payload_list.length = 1 →
      median_framerate r = Except.ok (NumVal.nan, gather_timestamps r)) := by
  have hser : (gather_timestamps r).timestamps_npy
      = r.frame_payload_list.map (fun f => f.timestamp) := by
    simp [gather_timestamps, hfresh]
  have hmain : median_framerate r =
      Except.ok
        (recipVal (npNanmedian
          ((npDiff (r.frame_payload_list.map (fun f => f.timestamp))).map
            (fun d => d / 1000000000))),
         gather_timestamps r) := by
    rw [median_framerate_ok r hne]
    unfold medianValue
    rw [hser, npDiff_map_div]
  refine ⟨hmain, fun h1 => ?_⟩
  obtain ⟨f, hf⟩ := List.length_eq_one.mp h1
  rw [hmain, hf]
  simp [npDiff, npNanmedian, sortQ, recipVal]

/-- Witness for C2 at a concrete input: `rec1` is fresh with one buffered
frame, and the first evaluation returns NaN. -/
theorem C2_median_framerate_first_evaluation_witness :
    rec1.timestamps_npy = [] ∧ rec1.frame_payload_list ≠ [] ∧
    median_framerate rec1 = Except.ok (NumVal.nan, gather_timestamps rec1) :=
  ⟨rfl, by decide,
   (C2_median_framerate_first_evaluation rec1 rfl (by decide)).2 rfl⟩

/-- Claim C4 counterexample: with the binary (`np.save`) write failing and
the csv write healthy, the flush of `rec1` propagates the binary-save
error and its trace ends at the sink release: the human-readable write is
never attempted, so the two side-file writes are not independent. -/
theorem C4_counterexample_binary_failure_blocks_csv :
    envNpyFail.csvSaveFails = false ∧
    (save_frame_payload_list_to_disk envNpyFail rec1).2.2 = some Err.npySaveError ∧
    (save_frame_payload_list_to_disk envNpyFail rec1).2.1 =
      [Event.sinkOpen "freemocap_data/sess1/synchronized_videos/cam0.mp4" "MP4V"
         NumVal.inf 640 480,
       Event.sinkWrite 7, Event.sinkRelease] := by
  refine ⟨rfl, ?_, ?_⟩ <;>
    rw [flush_eq_ok envNpyFail rec1 (by decide) (fun j _ => rfl),
      medianValue_rec1_gathered] <;> decide

/-- Claim C5: `median_framerate` raises exactly on an empty frame buffer. -/
theorem C5_median_framerate_error_iff_empty_buffer (r : VideoRecorder) :
    (∃ e, median_framerate r = Except.error e) ↔ r.frame_payload_list.length = 0 := by
  by_cases h : r.frame_payload_list.length = 0
  · simp only [h, iff_true]
    exact ⟨Err.emptyBuffer, by unfold median_framerate; rw [if_pos h]⟩
  · simp only [h, iff_false, not_exists]
    intro e
    unfold median_framerate
    rw [if_neg h]
    intro hcontra
    exact Except.noConfusion hcontra

/-- Witness for C5 at concrete inputs: the empty recorder errors, the
one-frame recorder does not. -/
theorem C5_median_framerate_error_iff_empty_buffer_witness :
    ((∃ e, median_framerate rec0 = Except.error e) ↔ rec0.frame_payload_list.length = 0) ∧
    ((∃ e, median_framerate rec1 = Except.error e) ↔ rec1.frame_payload_list.length = 0) :=
  ⟨C5_median_framerate_error_iff_empty_buffer rec0,
   C5_median_framerate_error_iff_empty_buffer rec1⟩

/-- Claim C6: flushing with an empty frame buffer is a non-raising no-op:
no event is emitted (no sink open, no write, no file produced) and the
recorder state is unchanged. -/
theorem C6_flush_on_empty_buffer_is_noop (env : Env) (r : VideoRecorder)
    (h : r.frame_payload_list = []) :
    save_frame_payload_list_to_disk env r = (r, [], none) := by
  unfold save_frame_payload_list_to_disk
  rw [if_pos (by rw [h]; rfl)]

/-- Witness for C6: the freshly constructed `rec0` has an empty buffer and
its flush does nothing. -/
theorem C6_flush_on_empty_buffer_is_noop_witness :
    rec0.frame_payload_list = [] ∧
    save_frame_payload_list_to_disk envOk rec0 = (rec0, [], none) :=
  ⟨rfl, C6_flush_on_empty_buffer_is_noop envOk rec0 rfl⟩

/-- Claim C9: construction resolves the destination directory by exactly
one of the three strategies, mediapipe-annotated over calibration over the
synchronized default, and the output file path is
`<resolved directory>/<video_name>.mp4`. -/
theorem C9_construction_resolves_directory_with_precedence
    (gs gc gm : String → String) (video_name : String) (w h : Nat)
    (session_id fourcc : String) (calib mp : Bool) :
    ((mp = true →
        (mkVideoRecorder gs gc gm video_name w h session_id fourcc calib mp).video_folder_path
          = gm session_id) ∧
     (mp = false → calib = true →
        (mkVideoRecorder gs gc gm video_name w h session_id fourcc calib mp).video_folder_path
          = gc session_id) ∧
     (mp = false → calib = false →
        (mkVideoRecorder gs gc gm video_name w h session_id fourcc calib mp).video_folder_path
          = gs session_id)) ∧
    (mkVideoRecorder gs gc gm video_name w h session_id fourcc calib mp).path_to_save_video_file
      = (mkVideoRecorder gs gc gm video_name w h session_id fourcc calib mp).video_folder_path
        ++ "/" ++ video_name ++ ".mp4" := by
  refine ⟨⟨fun hmp => ?_, fun hmp hc => ?_, fun hmp hc => ?_⟩, ?_⟩
  · subst hmp; rfl
  · subst hmp; subst hc; rfl
  · subst hmp; subst hc; rfl
  · cases mp <;> cases calib <;> rfl

/-- Witness for C9: with both flags set the annotated-videos directory
wins, and the file path appends `<name>.mp4`. -/
theorem C9_construction_resolves_directory_with_precedence_witness :
    (mkVideoRecorder sync_path_model calib_path_model annotated_path_model
        "cam0" 640 480 "sess1" "MP4V" true true).video_folder_path
      = "freemocap_data/sess1/mediapipe_annotated_videos" ∧
    (mkVideoRecorder sync_path_model calib_path_model annotated_path_model
        "cam0" 640 480 "sess1" "MP4V" true true).path_to_save_video_file
      = "freemocap_data/sess1/mediapipe_annotated_videos/cam0.mp4" := by
  have h := C9_construction_resolves_directory_with_precedence
    sync_path_model calib_path_model annotated_path_model
    "cam0" 640 480 "sess1" "MP4V" true true
  constructor
  · rw [h.1.1 rfl]; rfl
  · rw [h.2, h.1.1 rfl]; rfl

theorem count_release_shape (openEv : Event) (ws tail : List Event)
    (h1 : openEv ≠ Event.sinkRelease)
    (h2 : Event.sinkRelease ∉ ws) (h3 : Event.sinkRelease ∉ tail) :
    ((openEv :: (ws ++ [Event.sinkRelease])) ++ tail).count Event.sinkRelease = 1 := by
  rw [List.count_append, List.count_cons_of_ne (Ne.symm h1), List.count_append,
    List.count_eq_zero.mpr h2, List.count_eq_zero.mpr h3]
  rfl

theorem release_not_in_writes (l : List FramePayload) :
    Event.sinkRelease ∉ l.map (fun f => Event.sinkWrite f.image) := by
  simp

/-- Claim C3: on a non-empty buffer the flush releases the sink exactly
once on every exit path: the trace always contains exactly one release;
when no image write fails, the release comes directly after the last
buffered image (only side-file events follow it); and when the first
failing write is at index k, the same write exception propagates to the
caller while the release still happened. -/
theorem C3_flush_releases_sink_exactly_once (env : Env) (r : VideoRecorder)
    (hne : r.frame_payload_list ≠ []) :
    (save_frame_payload_list_to_disk env r).2.1.count Event.sinkRelease = 1 ∧
    ((∀ j, j < r.frame_payload_list.length → env.writeFails j = false) →
      ∃ tail,
        (save_frame_payload_list_to_disk env r).2.1 =
          Event.sinkOpen r.path_to_save_video_file r.fourcc
              (medianValue (gather_timestamps r)) r.image_width r.image_height
            :: (r.frame_payload_list.map (fun f => Event.sinkWrite f.image)
              ++ Event.sinkRelease :: tail) ∧
        (∀ img, Event.sinkWrite img ∉ tail) ∧ Event.sinkRelease ∉ tail) ∧
    (∀ k, k < r.frame_payload_list.length → env.writeFails k = true →
      (∀ j, j < k → env.writeFails j = false) →
      (save_frame_payload_list_to_disk env r).2.2 = some (Err.sinkWriteError k) ∧
      Event.sinkRelease ∈ (save_frame_payload_list_to_disk env r).2.1) := by
  have hopen : Event.sinkOpen r.path_to_save_video_file r.fourcc
      (medianValue (gather_timestamps r)) r.image_width r.image_height
      ≠ Event.sinkRelease := by intro h; exact Event.noConfusion h
  refine ⟨?_, ?_, ?_⟩
  · by_cases hall : ∀ j, j < r.frame_payload_list.length → env.writeFails j = false
    · rw [flush_eq_ok env r hne hall]
      exact count_release_shape _ _ _ hopen (release_not_in_writes _)
        (save_timestamps_no_sink_events env _).2
    · push_neg at hall
      obtain ⟨j, hj, hjf⟩ := hall
      have hjf' : env.writeFails j = true := by
        cases hjq : env.writeFails j with
        | false => exact absurd hjq hjf
        | true => rfl
      have hex : ∃ m, env.writeFails m = true := ⟨j, hjf'⟩
      have hfail : env.writeFails (Nat.find hex) = true := Nat.find_spec hex
      have hmin : ∀ i, i < Nat.find hex → env.writeFails i = false := by
        intro i hi
        have hnot := Nat.find_min hex hi
        cases hiq : env.writeFails i with
        | false => rfl
        | true => exact absurd hiq hnot
      have hklt : Nat.find hex < r.frame_payload_list.length :=
        lt_of_le_of_lt (Nat.find_min' hex hjf') hj
      rw [flush_eq_fail env r hne (Nat.find hex) hklt hfail hmin,
        ← List.append_nil (Event.sinkOpen r.path_to_save_video_file r.fourcc
          (medianValue (gather_timestamps r)) r.image_width r.image_height
          :: ((r.frame_payload_list.take (Nat.find hex)).map
              (fun f => Event.sinkWrite f.image) ++ [Event.sinkRelease]))]
      exact count_release_shape _ _ _ hopen (release_not_in_writes _) (by simp)
  · intro hall
    rw [flush_eq_ok env r hne hall]
    refine ⟨(save_timestamps env
      { gather_timestamps (gather_timestamps r) with cv2_video_writer := some () }).1,
      by simp, fun img => ?_, ?_⟩
    · exact (fun hmem => (save_timestamps_no_sink_events env _).1 img hmem)
    · exact (save_timestamps_no_sink_events env _).2
  · intro k hk hfail hmin
    rw [flush_eq_fail env r hne k hk hfail hmin]
    exact ⟨rfl, by simp⟩

/-- Witness for C3 at a concrete input: flushing the three-frame recorder
in the all-healthy environment yields exactly one release event. -/
theorem C3_flush_releases_sink_exactly_once_witness :
    rec3.frame_payload_list ≠ [] ∧
    (save_frame_payload_list_to_disk envOk rec3).2.1.count Event.sinkRelease = 1 :=
  ⟨by decide, (C3_flush_releases_sink_exactly_once envOk rec3 (by decide)).1⟩

/-- Claim C4 as amended: the two timestamp side-file writes are
sequential, not independent. The binary write is attempted first; if it
fails, its exception propagates and the human-readable write is never
attempted; if the binary write succeeds and the csv write fails, the
binary file is already written and the csv exception propagates; in every
case the video events (open, all writes, release) are unchanged — nothing
rolls back the already-written video file. -/
theorem C4_amended_side_file_writes_are_sequential (env : Env) (r : VideoRecorder)
    (hne : r.frame_payload_list ≠ [])
    (hw : ∀ j, j < r.frame_payload_list.length → env.writeFails j = false) :
    ∃ data,
      (env.npySaveFails = true →
        (save_frame_payload_list_to_disk env r).2.1 =
          Event.sinkOpen r.path_to_save_video_file r.fourcc
              (medianValue (gather_timestamps r)) r.image_width r.image_height
            :: (r.frame_payload_list.map (fun f => Event.sinkWrite f.image)
               ++ [Event.sinkRelease]) ∧
        (save_frame_payload_list_to_disk env r).2.2 = some Err.npySaveError) ∧
      (env.npySaveFails = false →
        ∃ tail,
          (save_frame_payload_list_to_disk env r).2.1 =
            (Event.sinkOpen r.path_to_save_video_file r.fourcc
                (medianValue (gather_timestamps r)) r.image_width r.image_height
              :: (r.frame_payload_list.map (fun f => Event.sinkWrite f.image)
                 ++ [Event.sinkRelease]))
            ++ Event.npySave
                (r.video_folder_path ++ "/" ++ r.video_name ++ "_timestamps_binary.npy")
                data :: tail ∧
          (env.csvSaveFails = true →
            tail = [] ∧
            (save_frame_payload_list_to_disk env r).2.2 = some Err.csvSaveError) ∧
          (env.csvSaveFails = false →
            tail = [Event.csvSave
                (r.video_folder_path ++ "/" ++ r.video_name
                  ++ "_timestamps_human_readable.csv")
                data] ∧
            (save_frame_payload_list_to_disk env r).2.2 = none)) := by
  refine ⟨(gather_timestamps (gather_timestamps r)).timestamps_npy, ?_, ?_⟩
  · intro hnpy
    rw [flush_eq_ok env r hne hw]
    unfold save_timestamps
    rw [hnpy]
    simp
  · intro hnpy
    rw [flush_eq_ok env r hne hw]
    unfold save_timestamps
    rw [hnpy]
    by_cases hcsv : env.csvSaveFails
    · refine ⟨[], ?_, fun _ => ⟨rfl, by simp [hcsv]⟩, fun hc => absurd hcsv (by simp [hc])⟩
      simp [hcsv, gather_timestamps]
    · have hcsv' : env.csvSaveFails = false := by simpa using hcsv
      refine ⟨_, ?_, fun hc => absurd hc (by simp [hcsv']), fun _ => ⟨rfl, by simp [hcsv']⟩⟩
      simp [hcsv', gather_timestamps]

/-- Witness for C4-amended at a concrete input: with the binary write
failing on `rec1`, the flush propagates the binary-save error. -/
theorem C4_amended_side_file_writes_are_sequential_witness :
    rec1.frame_payload_list ≠ [] ∧
    (save_frame_payload_list_to_disk envNpyFail rec1).2.2 = some Err.npySaveError := by
  refine ⟨by decide, ?_⟩
  obtain ⟨data, h1, _⟩ := C4_amended_side_file_writes_are_sequential envNpyFail rec1
    (by decide) (fun j _ => rfl)
  exact (h1 rfl).2

/-- Claim C7: the direct image-list flush with a non-empty image list and
an explicit rate opens the sink exactly once at that rate with the
configured path, codec, width and height, writes the images in list
order, releases the sink, emits no timestamp side-file events, and leaves
the recorder state (in particular the timestamp series) untouched except
for the writer handle. -/
theorem C7_save_image_list_explicit_rate (env : Env) (r : VideoRecorder)
    (image_list : List Nat) (rate : NumVal) (hne : image_list ≠ [])
    (hw : ∀ j, j < image_list.length → env.writeFails j = false) :
    save_image_list_to_disk env r image_list (some rate) =
      ({ r with cv2_video_writer := some () },
       Event.sinkOpen r.path_to_save_video_file r.fourcc rate
           r.image_width r.image_height
         :: (image_list.map Event.sinkWrite ++ [Event.sinkRelease]),
       none) := by
  have hloop := writeImagesLoop_ok env image_list 0 (fun j hj => by
    rw [Nat.zero_add]; exact hw j hj)
  unfold save_image_list_to_disk
  rw [if_neg (length_ne_zero_of_ne_nil hne)]
  simp only [init_video_writer, write_image_list_to_video_file, hloop]

/-- Witness for C7: five raw images at explicit rate 24 produce one open
at rate 24, five ordered writes, one release, and nothing else. -/
theorem C7_save_image_list_explicit_rate_witness :
    ([1, 2, 3, 4, 5] : List Nat) ≠ [] ∧
    save_image_list_to_disk envOk rec0 [1, 2, 3, 4, 5] (some (NumVal.num 24)) =
      ({ rec0 with cv2_video_writer := some () },
       Event.sinkOpen rec0.path_to_save_video_file "MP4V" (NumVal.num 24) 640 480
         :: ([1, 2, 3, 4, 5].map Event.sinkWrite ++ [Event.sinkRelease]),
       none) :=
  ⟨by decide,
   C7_save_image_list_explicit_rate envOk rec0 [1, 2, 3, 4, 5] (NumVal.num 24)
     (by decide) (fun j _ => rfl)⟩

/-- Claim C8: starting from a recorder whose writer is unopened (and whose
buffer is non-empty so a rate can be derived), a sequence of streaming
writes opens the sink exactly once — on the first call — then writes each
given image immediately with no further open, no release, and no
side-file events; the frame buffer is unchanged, and the timestamp series
grows only by the already-buffered timestamps (gathered while deriving
the rate on the first call), never by the streamed frames' timestamps. -/
theorem C8_streaming_write_opens_once_no_buffering (r : VideoRecorder)
    (f : FramePayload) (rest : List FramePayload)
    (hw : r.cv2_video_writer = none) (hne : r.frame_payload_list ≠ []) :
    streamFrames r (f :: rest) =
      Except.ok
        ({ gather_timestamps r with cv2_video_writer := some () },
         Event.sinkOpen r.path_to_save_video_file r.fourcc (medianValue r)
             r.image_width r.image_height
           :: (f :: rest).map (fun g => Event.sinkWrite g.image)) ∧
    ({ gather_timestamps r with cv2_video_writer := some () }).frame_payload_list
      = r.frame_payload_list ∧
    ({ gather_timestamps r with cv2_video_writer := some () }).timestamps_npy
      = r.timestamps_npy ++ r.frame_payload_list.map (fun g => g.timestamp) := by
  refine ⟨?_, rfl, rfl⟩
  have hfirst : save_frame_payload_to_video_file r f =
      Except.ok ({ gather_timestamps r with cv2_video_writer := some () },
        [Event.sinkOpen r.path_to_save_video_file r.fourcc (medianValue r)
           r.image_width r.image_height,
         Event.sinkWrite f.image]) := by
    unfold save_frame_payload_to_video_file
    rw [hw, init_video_writer_none r hne]
  unfold streamFrames
  rw [hfirst]
  simp only [streamFrames_opened rest
    { gather_timestamps r with cv2_video_writer := some () } rfl]
  simp

/-- Witness for C8: streaming two frames through `rec1` opens once and
writes both images in order. -/
theorem C8_streaming_write_opens_once_no_buffering_witness :
    rec1.cv2_video_writer = none ∧ rec1.frame_payload_list ≠ [] ∧
    streamFrames rec1
        [{ image := 9, timestamp := 100 }, { image := 10, timestamp := 200 }] =
      Except.ok
        ({ gather_timestamps rec1 with cv2_video_writer := some () },
         [Event.sinkOpen rec1.path_to_save_video_file "MP4V" (medianValue rec1)
            640 480,
          Event.sinkWrite 9, Event.sinkWrite 10]) :=
  ⟨rfl, by decide,
   (C8_streaming_write_opens_once_no_buffering rec1 { image := 9, timestamp := 100 }
     [{ image := 10, timestamp := 200 }] rfl (by decide)).1⟩

theorem gather_iterate_frames (r : VideoRecorder) :
    ∀ k, (gather_timestamps^[k] r).frame_payload_list = r.frame_payload_list
  | 0 => rfl
  | k + 1 => by
      rw [Function.iterate_succ_apply', gather_preserves_frames,
        gather_iterate_frames r k]

theorem gather_iterate_length (r : VideoRecorder) :
    ∀ k, (gather_timestamps^[k] r).timestamps_npy.length
      = r.timestamps_npy.length + k * r.frame_payload_list.length
  | 0 => by simp
  | k + 1 => by
      rw [Function.iterate_succ_apply']
      show (gather_timestamps (gather_timestamps^[k] r)).timestamps_npy.length = _
      simp [gather_timestamps, gather_iterate_frames r k, gather_iterate_length r k]
      ring

theorem medianValue_rec3 : medianValue rec3 = NumVal.num (2 / 3) := by
  have d1 : (1000000000 : ℚ) / 1000000000 - 0 / 1000000000 = 1 := by norm_num
  have d2 : (3000000000 : ℚ) / 1000000000 - 1000000000 / 1000000000 = 2 := by norm_num
  unfold medianValue
  show recipVal (npNanmedian
    [(1000000000 : ℚ) / 1000000000 - 0 / 1000000000,
     (3000000000 : ℚ) / 1000000000 - 1000000000 / 1000000000]) = NumVal.num (2 / 3)
  rw [d1, d2]
  have hmed : npNanmedian [(1 : ℚ), 2] = NumVal.num ((1 + 2) / 2) := rfl
  rw [hmed]
  have hval : ((1 : ℚ) + 2) / 2 = 3 / 2 := by norm_num
  rw [hval]
  simp only [recipVal]
  rw [if_neg (by norm_num : ¬(3 / 2 : ℚ) = 0)]
  norm_num

theorem medianValue_rec3_gathered :
    medianValue (gather_timestamps rec3) = NumVal.num 1 := by
  have d1 : (1000000000 : ℚ) / 1000000000 - 0 / 1000000000 = 1 := by norm_num
  have d2 : (3000000000 : ℚ) / 1000000000 - 1000000000 / 1000000000 = 2 := by norm_num
  have d3 : (0 : ℚ) / 1000000000 - 3000000000 / 1000000000 = -3 := by norm_num
  unfold medianValue
  show recipVal (npNanmedian
    [(1000000000 : ℚ) / 1000000000 - 0 / 1000000000,
     (3000000000 : ℚ) / 1000000000 - 1000000000 / 1000000000,
     (0 : ℚ) / 1000000000 - 3000000000 / 1000000000,
     (1000000000 : ℚ) / 1000000000 - 0 / 1000000000,
     (3000000000 : ℚ) / 1000000000 - 1000000000 / 1000000000]) = NumVal.num 1
  rw [d1, d2, d3]
  have hmed : npNanmedian [(1 : ℚ), 2, -3, 1, 2] = NumVal.num 1 := rfl
  rw [hmed]
  simp only [recipVal]
  rw [if_neg (by norm_num : ¬(1 : ℚ) = 0)]
  norm_num

/-- Claim C10 (implicit behaviour): the timestamp series is never cleared
— each gathering appends all currently buffered timestamps to the
existing series, so k gatherings on a fresh recorder with n buffered
frames leave k*n entries; consequently two successive evaluations of
`median_framerate` on the unchanged three-frame buffer return different
values (3/2 s median vs 1 s median, i.e. rates 2/3 and 1), and the
side-file persistence writes the series verbatim, so the persisted files
depend on how many gatherings ran before persistence. -/
theorem C10_timestamp_series_accumulates (r : VideoRecorder) (k : Nat)
    (hfresh : r.timestamps_npy = []) (hne : r.frame_payload_list ≠ []) :
    ((∀ s : VideoRecorder,
        (gather_timestamps s).timestamps_npy
          = s.timestamps_npy ++ s.frame_payload_list.map (fun g => g.timestamp)) ∧
     (gather_timestamps^[k] r).timestamps_npy.length
        = k * r.frame_payload_list.length) ∧
    ((median_framerate rec3 = Except.ok (NumVal.num (2 / 3), gather_timestamps rec3) ∧
      median_framerate (gather_timestamps rec3)
        = Except.ok (NumVal.num 1, gather_timestamps (gather_timestamps rec3)) ∧
      (NumVal.num (2 / 3) : NumVal) ≠ NumVal.num 1) ∧
     (∀ s : VideoRecorder, (save_timestamps envOk s).1 =
        [Event.npySave (s.video_folder_path ++ "/" ++ s.video_name
            ++ "_timestamps_binary.npy") s.timestamps_npy,
         Event.csvSave (s.video_folder_path ++ "/" ++ s.video_name
            ++ "_timestamps_human_readable.csv") s.timestamps_npy])) := by
  refine ⟨⟨fun s => rfl, ?_⟩, ⟨?_, ?_, ?_⟩, fun s => rfl⟩
  · rw [gather_iterate_length r k, hfresh]
    simp
  · rw [median_framerate_ok rec3 (by decide), medianValue_rec3]
  · rw [median_framerate_ok (gather_timestamps rec3) (by decide),
      medianValue_rec3_gathered]
  · intro hcontr
    have : (2 / 3 : ℚ) = 1 := NumVal.num.inj hcontr
    norm_num at this

/-- Witness for C10: two gatherings on the fresh three-frame recorder
leave six series entries. -/
theorem C10_timestamp_series_accumulates_witness :
    rec3.timestamps_npy = [] ∧ rec3.frame_payload_list ≠ [] ∧
    (gather_timestamps^[2] rec3).timestamps_npy.length
      = 2 * rec3.frame_payload_list.length :=
  ⟨rfl, by decide, (C10_timestamp_series_accumulates rec3 2 rfl (by decide)).1.2⟩

end Freemocap
